import Mathlib

/-!
Verification of the asynchronous job-lifecycle layer of the Financial
Document Analyzer (FastAPI + Celery + SQLAlchemy).

The embedding below translates the job-lifecycle code:
  - `models.py`   : the `AnalysisResult` row (Job Record) and `User` row.
  - `crud.py`     : `get_analysis`, `create_analysis`, `update_analysis_status`,
                    `update_analysis_result`, `delete_old_analyses`,
                    `get_or_create_user`.
  - `celery_app.py`: `analyze_document_task` (the Background Executor task).
  - `main.py`     : `run_crew_analysis`, `check_status`, `get_analysis_result`,
                    `submit_analysis`.

Modelling decisions:
  - The database table is a list of rows; `id` is the primary key, so the
    single-row UPDATE of the source is a map over rows with a matching id.
  - `datetime.utcnow()` instants are natural numbers passed in explicitly.
  - The external CrewAI collaborator (`Crew(...).kickoff`) is a parameter of
    type `String → String → Except String String`: it either returns a string
    result or raises with a message; everything downstream of that call is
    translated from the source.
  - `json.loads` inside the executor is a parameter `String → Option Json`
    (`none` models a `JSONDecodeError`); `json.dumps` of the fixed error
    object built by `run_crew_analysis` is modelled concretely, including
    Python's `ensure_ascii` string escaping and default separators.
  - Python truthiness of an optional string (`if error_message:` treats both
    `None` and `""` as false) is modelled by `pyTruthy`.
  - The SQL comparison `completed_at < cutoff` evaluates to NULL (hence the
    row is not selected) when `completed_at` is NULL; this is modelled by the
    `none` branch of `isExpired` returning `false`.
-/

namespace FinDocAnalyzer

/-- JSON-shaped values, standing for the Python dict/str payloads stored in
the `result_json` column and returned by `json.loads`. -/
inductive Json where
  | str : String → Json
  | num : Int → Json
  | boolean : Bool → Json
  | null : Json
  | arr : List Json → Json
  | obj : List (String × Json) → Json
deriving Repr

/-- Row of the `analysis_results` table (`models.py`, class `AnalysisResult`).
`id` is the primary key (the UUID task id). -/
structure AnalysisResult where
  id : String
  user_id : Option Nat
  filename : String
  status : String
  result_json : Option Json
  error_message : Option String
  created_at : Nat
  completed_at : Option Nat
deriving Repr

/-- Row of the `users` table (`models.py`, class `User`). -/
structure User where
  id : Nat
  email : String
deriving Repr

/-- The `analysis_results` table. -/
abbrev Store := List AnalysisResult

/-- Python truthiness of an `Optional[str]`: `None` and `""` are falsy. -/
def pyTruthy (o : Option String) : Bool :=
  match o with
  | none => false
  | some s => s != ""

/-- `crud.get_analysis`: `session.query(AnalysisResult).filter(id == task_id).first()`. -/
def get_analysis (store : Store) (task_id : String) : Option AnalysisResult :=
  store.find? (fun r => r.id == task_id)

/-- `crud.create_analysis`: inserts a fresh row with status `"pending"`; all
other mutable columns take their column defaults (NULL), `created_at` takes
`datetime.utcnow()`. -/
def create_analysis (store : Store) (now : Nat) (task_id : String)
    (filename : String) (user_id : Option Nat) : Store × AnalysisResult :=
  let analysis : AnalysisResult :=
    { id := task_id, user_id := user_id, filename := filename,
      status := "pending", result_json := none, error_message := none,
      created_at := now, completed_at := none }
  (store ++ [analysis], analysis)

/-- Single-row update performed on the matching row; `id` is the primary key,
so the source's mutation of the one row found is a map over matching ids. -/
def updateRecord (store : Store) (task_id : String)
    (f : AnalysisResult → AnalysisResult) : Store :=
  store.map (fun r => if r.id == task_id then f r else r)

/-- Body of `crud.update_analysis_status` applied to the found row:
sets `status` unconditionally; sets `error_message` only when the argument is
truthy (`if error_message:`); sets `completed_at` only when the new status is
`"completed"` (`if status == "completed"`). -/
def applyStatusUpdate (now : Nat) (status : String)
    (error_message : Option String) (r : AnalysisResult) : AnalysisResult :=
  let r1 := { r with status := status }
  let r2 := if pyTruthy error_message then { r1 with error_message := error_message } else r1
  if status == "completed" then { r2 with completed_at := some now } else r2

/-- `crud.update_analysis_status`: looks the row up; when absent, logs and
returns `None` without touching the table; when present, applies
`applyStatusUpdate` and returns the refreshed row. -/
def update_analysis_status (store : Store) (now : Nat) (task_id : String)
    (status : String) (error_message : Option String) :
    Store × Option AnalysisResult :=
  match get_analysis store task_id with
  | none => (store, none)
  | some _ =>
    let store' := updateRecord store task_id (applyStatusUpdate now status error_message)
    (store', get_analysis store' task_id)

/-- Body of `crud.update_analysis_result` applied to the found row: sets
`status` and `result_json` unconditionally and always stamps `completed_at`. -/
def applyResultUpdate (now : Nat) (status : String) (result_json : Json)
    (r : AnalysisResult) : AnalysisResult :=
  { r with status := status, result_json := some result_json,
           completed_at := some now }

/-- `crud.update_analysis_result`: looks the row up; when absent, logs and
returns `None` without touching the table; when present, applies
`applyResultUpdate` and returns the refreshed row. -/
def update_analysis_result (store : Store) (now : Nat) (task_id : String)
    (status : String) (result_json : Json) : Store × Option AnalysisResult :=
  match get_analysis store task_id with
  | none => (store, none)
  | some _ =>
    let store' := updateRecord store task_id (applyResultUpdate now status result_json)
    (store', get_analysis store' task_id)

/-- Selection predicate of `crud.delete_old_analyses`:
`AnalysisResult.completed_at < cutoff` under SQL three-valued logic — a NULL
`completed_at` never satisfies the comparison. -/
def isExpired (cutoff : Nat) (r : AnalysisResult) : Bool :=
  match r.completed_at with
  | some t => t < cutoff
  | none => false

/-- `crud.delete_old_analyses`: computes `cutoff = utcnow() - timedelta(days)`,
counts the selected rows, deletes exactly those rows, returns the count. -/
def delete_old_analyses (store : Store) (now : Nat) (days : Nat) : Store × Nat :=
  let cutoff := now - days
  let count := (store.filter (fun r => isExpired cutoff r)).length
  (store.filter (fun r => !(isExpired cutoff r)), count)

/-- `crud.get_or_create_user`: finds the user by email or inserts a fresh one
(autoincrement primary key modelled as `length + 1`). -/
def get_or_create_user (users : List User) (email : String) :
    List User × User :=
  match users.find? (fun u => u.email == email) with
  | some u => (users, u)
  | none =>
    let u : User := { id := users.length + 1, email := email }
    (users ++ [u], u)

/-- Hexadecimal digit (lowercase), as produced by Python's `'\u%04x'`. -/
def hexDigit (n : Nat) : Char :=
  if n < 10 then Char.ofNat (48 + n) else Char.ofNat (87 + n)

/-- Four-digit lowercase hexadecimal rendering of a code unit. -/
def hex4 (n : Nat) : String :=
  String.mk [hexDigit (n / 4096 % 16), hexDigit (n / 256 % 16),
             hexDigit (n / 16 % 16), hexDigit (n % 16)]

/-- Escaping of one character by `json.dumps` with its default
`ensure_ascii=True`: the two-character escapes of the C0 set, `\uXXXX` for
the remaining control characters, printable ASCII kept verbatim, and all
non-ASCII escaped (surrogate pairs above the BMP). -/
def pyJsonEscapeChar (c : Char) : String :=
  if c = '"' then "\\\""
  else if c = '\\' then "\\\\"
  else if c = '\n' then "\\n"
  else if c = '\r' then "\\r"
  else if c = '\t' then "\\t"
  else if c = Char.ofNat 8 then "\\b"
  else if c = Char.ofNat 12 then "\\f"
  else if c.toNat < 32 then "\\u" ++ hex4 c.toNat
  else if c.toNat < 127 then String.singleton c
  else if c.toNat < 65536 then "\\u" ++ hex4 c.toNat
  else
    let v := c.toNat - 65536
    "\\u" ++ hex4 (55296 + v / 1024) ++ "\\u" ++ hex4 (56320 + v % 1024)

/-- `json.dumps` rendering of a Python string. -/
def pyJsonQuote (s : String) : String :=
  "\"" ++ String.join (s.data.map pyJsonEscapeChar) ++ "\""

/-- `json.dumps({"error": str(e), "status": "failed"})` with the default
separators: insertion order is preserved, so the object is rendered as
`\x7b"error": <quoted message>, "status": "failed"\x7d`. -/
def json_dumps_error (msg : String) : String :=
  "\x7b\"error\": " ++ pyJsonQuote msg ++ ", \"status\": \"failed\"\x7d"

/-- `main.run_crew_analysis`: builds the crew and calls `kickoff` inside a
`try`; on success the collaborator's result string is returned as is; any
exception is caught and converted to the serialized error object. The whole
body is inside the `try`, so the function always returns a string. The
collaborator is the parameter `kickoff` (applied to the query; the document
at `file_path` is read by the crew's task, so the path is passed along). -/
def run_crew_analysis (kickoff : String → String → Except String String)
    (query : String) (file_path : String) : String :=
  match kickoff query file_path with
  | Except.ok result => result
  | Except.error e => json_dumps_error e

/-- Observable actions of one run of the Background Executor's task, in
temporal order: database writes, the collaborator invocation, and the
Celery-level failure signal (`self.update_state`). -/
inductive TaskEvent where
  | dbUpdateStatus : String → String → Option String → TaskEvent
  | invokeAnalysis : String → String → TaskEvent
  | dbUpdateResult : String → String → TaskEvent
  | celeryUpdateState : String → String → TaskEvent
deriving Repr

/-- How one run of the task terminates: the `return` dict of the success
path, or the `raise` at the end of the `except` block. -/
inductive TaskOutcome where
  | success : String → Json → TaskOutcome
  | reraise : String → TaskOutcome
deriving Repr

/-- `celery_app.analyze_document_task`.
Step 1 sets status `"running"` (the return value is not inspected, so a
missing row does not stop the task). Step 2 is the analysis call, which may
raise — modelled by `analysisStep : Except String String` standing for the
value of (or the exception escaping from) the `run_crew_analysis(...)` call
site. Step 3 parses the result (`json.loads`; on `JSONDecodeError` the raw
string is wrapped as `\x7b"raw_analysis": ...\x7d`). Step 4 stores the result
with status `"completed"`. The `except` block sets status `"failed"` with
`error_message=str(exc)`, then calls `self.update_state(state="FAILURE")`,
then re-raises. Returns the final table, the event trace in temporal order,
and the outcome. -/
def analyze_document_task (store : Store) (now : Nat) (task_id : String)
    (file_path : String) (query : String)
    (analysisStep : Except String String)
    (parseJson : String → Option Json) :
    Store × List TaskEvent × TaskOutcome :=
  let store1 := (update_analysis_status store now task_id "running" none).1
  match analysisStep with
  | Except.error msg =>
    let store2 := (update_analysis_status store1 now task_id "failed" (some msg)).1
    (store2,
      [TaskEvent.dbUpdateStatus task_id "running" none,
       TaskEvent.invokeAnalysis query file_path,
       TaskEvent.dbUpdateStatus task_id "failed" (some msg),
       TaskEvent.celeryUpdateState "FAILURE" msg],
      TaskOutcome.reraise msg)
  | Except.ok analysis_result =>
    let result_json :=
      match parseJson analysis_result with
      | some j => j
      | none => Json.obj [("raw_analysis", Json.str analysis_result)]
    let store2 := (update_analysis_result store1 now task_id "completed" result_json).1
    (store2,
      [TaskEvent.dbUpdateStatus task_id "running" none,
       TaskEvent.invokeAnalysis query file_path,
       TaskEvent.dbUpdateResult task_id "completed"],
      TaskOutcome.success task_id result_json)

/-- The executor's task as actually deployed: its analysis step is the value
returned by `run_crew_analysis`, which never raises, so the step is always
`Except.ok`. -/
def analyze_document_task_run (store : Store) (now : Nat) (task_id : String)
    (file_path : String) (query : String)
    (kickoff : String → String → Except String String)
    (parseJson : String → Option Json) :
    Store × List TaskEvent × TaskOutcome :=
  analyze_document_task store now task_id file_path query
    (Except.ok (run_crew_analysis kickoff query file_path)) parseJson

/-- `fastapi.HTTPException` payload: status code and detail string. -/
structure HTTPErr where
  status_code : Nat
  detail : String
deriving Repr

/-- `schemas.AnalysisStatusResponse`. -/
structure AnalysisStatusResponse where
  task_id : String
  status : String
  progress : Nat
deriving Repr

/-- Progress computation of `main.check_status`:
`{"pending": 0, "running": 50, "completed": 100, "failed": 0}.get(status, 0)`. -/
def progressOf (status : String) : Nat :=
  (List.lookup status
    [("pending", 0), ("running", 50), ("completed", 100), ("failed", 0)]).getD 0

/-- `main.check_status` (GET `/status/{task_id}`): 404 when the row is
missing, otherwise the row's status and its mapped progress. -/
def check_status (store : Store) (task_id : String) :
    Except HTTPErr AnalysisStatusResponse :=
  match get_analysis store task_id with
  | none =>
    Except.error { status_code := 404, detail := "Task " ++ task_id ++ " not found" }
  | some analysis =>
    Except.ok { task_id := task_id, status := analysis.status,
                progress := progressOf analysis.status }

/-- `schemas.AnalysisResultResponse`. -/
structure AnalysisResultResponse where
  id : String
  user_id : Option Nat
  filename : String
  status : String
  result : Option Json
  error : Option String
  created_at : Nat
  completed_at : Option Nat
deriving Repr

/-- Python `str()` of an `Optional[str]`, as interpolated by the f-string
building the 400 detail (`None` renders as `"None"`). -/
def pyStrOfOptStr (o : Option String) : String :=
  match o with
  | none => "None"
  | some s => s

/-- `main.get_analysis_result` (GET `/analysis/{task_id}`): 404 when the row
is missing; 202 while status is `"pending"` or `"running"`; 400 carrying
`error_message` when status is `"failed"`; otherwise the full row. -/
def get_analysis_result (store : Store) (task_id : String) :
    Except HTTPErr AnalysisResultResponse :=
  match get_analysis store task_id with
  | none =>
    Except.error { status_code := 404, detail := "Analysis " ++ task_id ++ " not found" }
  | some analysis =>
    if analysis.status == "pending" || analysis.status == "running" then
      let d := "Analysis still processing. Current status: " ++ analysis.status
        ++ ". Check /status/" ++ task_id
      Except.error { status_code := 202, detail := d }
    else if analysis.status == "failed" then
      let d := "Analysis failed: " ++ pyStrOfOptStr analysis.error_message
      Except.error { status_code := 400, detail := d }
    else
      Except.ok { id := analysis.id, user_id := analysis.user_id,
                  filename := analysis.filename, status := analysis.status,
                  result := analysis.result_json, error := analysis.error_message,
                  created_at := analysis.created_at,
                  completed_at := analysis.completed_at }

/-- Side effects of `main.submit_analysis` in temporal order: the file write,
the Job Record insertion, and the Celery enqueue. -/
inductive SubmitEvent where
  | savedFile : String → SubmitEvent
  | createdAnalysis : String → String → SubmitEvent
  | enqueuedTask : String → String → String → SubmitEvent
deriving Repr

/-- `schemas.AnalysisRequestResponse`. -/
structure AnalysisRequestResponse where
  task_id : String
  status : String
  message : String
  status_url : String
deriving Repr

/-- Python `str.lower()` on one character (ASCII range, which is all the
`.pdf` suffix check depends on). -/
def pyLowerChar (c : Char) : Char :=
  if 65 ≤ c.toNat && c.toNat ≤ 90 then Char.ofNat (c.toNat + 32) else c

/-- Python `str.lower().endswith(".pdf")`: the last four characters of the
lowercased string are `.pdf`. -/
def lowerEndsWithPdf (s : String) : Bool :=
  (s.data.map pyLowerChar).reverse.take 4 == ['f', 'd', 'p', '.']

/-- Validation of `main.submit_analysis`:
`not file.filename or not file.filename.lower().endswith(".pdf")` rejects;
an absent or empty filename is falsy. -/
def validPdfFilename (filename : Option String) : Bool :=
  match filename with
  | none => false
  | some s => (s != "") && lowerEndsWithPdf s

/-- Whitespace stripped by Python `str.strip()`. -/
def pyIsSpace (c : Char) : Bool :=
  c == ' ' || c == '\t' || c == '\n' || c == '\r'
    || c == Char.ofNat 11 || c == Char.ofNat 12

/-- Python `str.strip()`. -/
def pyStrip (s : String) : String :=
  String.mk (((s.data.dropWhile pyIsSpace).reverse.dropWhile pyIsSpace).reverse)

/-- Query normalization of `main.submit_analysis`:
`if not query or query.strip() == ""` installs the default instruction,
otherwise the stripped query is used. -/
def normalizeQuery (query : String) : String :=
  if pyStrip query == "" then "Analyze this financial document comprehensively"
  else pyStrip query

/-- `main.submit_analysis` (POST `/analyze`): validates the filename before
any side effect (a non-PDF name is rejected with a 400 before the file is
written, before any Owner lookup and before the Job Record is created);
otherwise saves the file, normalizes the query, resolves the optional owner
(`if email:`, truthy), inserts the pending Job Record, enqueues the Celery
task and returns the submission response. Returns the result together with
the updated tables and the side-effect trace. -/
def submit_analysis (store : Store) (users : List User) (now : Nat)
    (file_id : String) (filename : Option String) (query : String)
    (email : Option String) :
    Except HTTPErr AnalysisRequestResponse × Store × List User × List SubmitEvent :=
  if !(validPdfFilename filename) then
    (Except.error { status_code := 400, detail := "Only PDF files are supported" },
     store, users, [])
  else
    let fname := match filename with | some s => s | none => ""
    let file_path := "data/financial_document_" ++ file_id ++ ".pdf"
    let q := normalizeQuery query
    let userStep : List User × Option Nat :=
      match email with
      | some e =>
        if e != "" then
          let (users', u) := get_or_create_user users e
          (users', some u.id)
        else (users, none)
      | none => (users, none)
    let users' := userStep.1
    let uid := userStep.2
    let (store', _) := create_analysis store now file_id fname uid
    let resp : AnalysisRequestResponse :=
      { task_id := file_id, status := "pending",
        message := "Analysis submitted successfully. Use status endpoint to check progress.",
        status_url := "/status/" ++ file_id }
    (Except.ok resp,
     store', users',
     [SubmitEvent.savedFile file_path,
      SubmitEvent.createdAnalysis file_id fname,
      SubmitEvent.enqueuedTask file_id file_path q])

/-! ### Helper lemmas -/

theorem applyStatusUpdate_id (now : Nat) (st : String) (em : Option String)
    (r : AnalysisResult) : (applyStatusUpdate now st em r).id = r.id := by
  unfold applyStatusUpdate
  dsimp only
  split <;> split <;> rfl

theorem applyResultUpdate_id (now : Nat) (st : String) (j : Json)
    (r : AnalysisResult) : (applyResultUpdate now st j r).id = r.id := rfl

theorem get_analysis_updateRecord (store : Store) (tid : String)
    (f : AnalysisResult → AnalysisResult) (hid : ∀ r, (f r).id = r.id) :
    get_analysis (updateRecord store tid f) tid = (get_analysis store tid).map f := by
  unfold get_analysis updateRecord
  rw [List.find?_map]
  have hp : (fun r => r.id == tid) ∘ (fun r => if r.id == tid then f r else r)
      = fun r => r.id == tid := by
    funext r
    by_cases h : (r.id == tid) = true
    · simp only [Function.comp_apply, if_pos h]
      rw [hid, h]
    · simp only [Function.comp_apply, if_neg h]
  rw [hp]
  cases hfind : List.find? (fun r => r.id == tid) store with
  | none => rfl
  | some a =>
    have ha := List.find?_some hfind
    have ha' : (a.id == tid) = true := ha
    simp only [Option.map_some']
    rw [if_pos ha']

theorem get_analysis_update_status (store : Store) (now : Nat) (tid st : String)
    (em : Option String) :
    get_analysis (update_analysis_status store now tid st em).1 tid
      = (get_analysis store tid).map (applyStatusUpdate now st em) := by
  unfold update_analysis_status
  cases h : get_analysis store tid with
  | none => simp only [h]; rfl
  | some r =>
    simp only
    rw [get_analysis_updateRecord store tid _ (fun r => applyStatusUpdate_id now st em r), h]

theorem get_analysis_update_result (store : Store) (now : Nat) (tid st : String)
    (j : Json) :
    get_analysis (update_analysis_result store now tid st j).1 tid
      = (get_analysis store tid).map (applyResultUpdate now st j) := by
  unfold update_analysis_result
  cases h : get_analysis store tid with
  | none => simp only [h]; rfl
  | some r =>
    simp only
    rw [get_analysis_updateRecord store tid _ (fun r => applyResultUpdate_id now st j r), h]

theorem update_status_missing (store : Store) (now : Nat) (tid st : String)
    (em : Option String) (h : get_analysis store tid = none) :
    update_analysis_status store now tid st em = (store, none) := by
  unfold update_analysis_status
  rw [h]

theorem update_result_missing (store : Store) (now : Nat) (tid st : String)
    (j : Json) (h : get_analysis store tid = none) :
    update_analysis_result store now tid st j = (store, none) := by
  unfold update_analysis_result
  rw [h]

/-! ### Concrete records used by counterexamples and witnesses -/

/-- A freshly created Job Record, exactly as `create_analysis` inserts it. -/
def demoPending : AnalysisResult :=
  { id := "t1", user_id := none, filename := "doc.pdf", status := "pending",
    result_json := none, error_message := none, created_at := 0,
    completed_at := none }

/-- A Job Record in the terminal `"completed"` state. -/
def demoCompleted : AnalysisResult :=
  { id := "t1", user_id := none, filename := "doc.pdf", status := "completed",
    result_json := some (Json.str "ok"), error_message := none,
    created_at := 0, completed_at := some 3 }

/-- A Job Record in the terminal `"failed"` state with recorded detail. -/
def demoFailed : AnalysisResult :=
  { id := "t1", user_id := none, filename := "doc.pdf", status := "failed",
    result_json := none, error_message := some "boom", created_at := 0,
    completed_at := none }

/-- Closed form of one `update_analysis_status` row update: status is
overwritten unconditionally, `error_message` only for a truthy argument,
`completed_at` only for the `"completed"` status. -/
theorem applyStatusUpdate_eq (now : Nat) (st : String) (em : Option String)
    (r : AnalysisResult) :
    applyStatusUpdate now st em r = { r with status := st, error_message := (if pyTruthy em then em else r.error_message), completed_at := (if st == "completed" then some now else r.completed_at) } := by
  unfold applyStatusUpdate
  dsimp only
  split_ifs <;> rfl

/-- The truthy branch of the error-message write is taken exactly for a
non-empty message. -/
theorem pyTruthy_some (msg : String) (hm : msg ≠ "") :
    pyTruthy (some msg) = true := by
  unfold pyTruthy
  rwa [bne_iff_ne]

/-- The running transition performed by the executor's step 1. -/
theorem applyStatusUpdate_running (now : Nat) (r : AnalysisResult) :
    applyStatusUpdate now "running" none r = { r with status := "running" } := rfl

/-- The failed transition performed by the executor's `except` block for a
non-empty exception message. -/
theorem applyStatusUpdate_failed (now : Nat) (msg : String) (r : AnalysisResult)
    (hm : msg ≠ "") :
    applyStatusUpdate now "failed" (some msg) r
      = { r with status := "failed", error_message := some msg } := by
  rw [applyStatusUpdate_eq, pyTruthy_some msg hm]
  rfl

/-- Count/keep partition of the Retention Sweeper's table. -/
theorem filter_partition_length (store : Store) (cutoff : Nat) :
    (store.filter (fun r => isExpired cutoff r)).length
      + (store.filter (fun r => !(isExpired cutoff r))).length = store.length := by
  have h := @List.length_eq_length_filter_add AnalysisResult store
    (fun r => isExpired cutoff r)
  omega

/-! ### Claim theorems -/

/-- C5: `getStatus` (GET `/status/{task_id}`) fails with 404 when no Job
Record exists for the identifier, and otherwise returns the record's status
together with a progress value given by the fixed deterministic mapping
pending→0, running→50, completed→100, failed→0. -/
theorem check_status_contract (store : Store) (task_id : String) :
    (get_analysis store task_id = none →
      check_status store task_id
        = Except.error { status_code := 404, detail := "Task " ++ task_id ++ " not found" })
    ∧ (∀ a, get_analysis store task_id = some a →
      check_status store task_id
        = Except.ok { task_id := task_id, status := a.status, progress := progressOf a.status })
    ∧ progressOf "pending" = 0 ∧ progressOf "running" = 50
    ∧ progressOf "completed" = 100 ∧ progressOf "failed" = 0 := by
  refine ⟨?_, ?_, rfl, rfl, rfl, rfl⟩
  · intro h
    unfold check_status
    rw [h]
  · intro a h
    unfold check_status
    rw [h]

/-- Witness for `check_status_contract`: the 404 branch on an empty store and
the success branch on a stored pending record. -/
theorem check_status_contract_witness :
    check_status [] "zzz"
      = Except.error { status_code := 404, detail := "Task " ++ "zzz" ++ " not found" }
    ∧ check_status [demoPending] "t1"
      = Except.ok { task_id := "t1", status := demoPending.status, progress := progressOf demoPending.status } :=
  ⟨(check_status_contract [] "zzz").1 rfl,
   (check_status_contract [demoPending] "t1").2.1 demoPending rfl⟩

/-- C6: `getResult` (GET `/analysis/{task_id}`) fails with 404 if no record
exists; fails with 202 (distinct from 404, carrying no record data) while the
record's status is pending or running; fails with 400 carrying the record's
error detail when status is failed; and otherwise returns the full record
including result, timestamps, filename and owner id. -/
theorem get_analysis_result_contract (store : Store) (task_id : String) :
    (get_analysis store task_id = none →
      get_analysis_result store task_id
        = Except.error { status_code := 404, detail := "Analysis " ++ task_id ++ " not found" })
    ∧ (∀ a, get_analysis store task_id = some a →
      ((a.status = "pending" ∨ a.status = "running") →
        get_analysis_result store task_id
          = Except.error { status_code := 202, detail := "Analysis still processing. Current status: " ++ a.status ++ ". Check /status/" ++ task_id })
      ∧ (a.status = "failed" →
        get_analysis_result store task_id
          = Except.error { status_code := 400, detail := "Analysis failed: " ++ pyStrOfOptStr a.error_message })
      ∧ (a.status ≠ "pending" → a.status ≠ "running" → a.status ≠ "failed" →
        get_analysis_result store task_id
          = Except.ok { id := a.id, user_id := a.user_id, filename := a.filename, status := a.status, result := a.result_json, error := a.error_message, created_at := a.created_at, completed_at := a.completed_at })) := by
  constructor
  · intro h
    unfold get_analysis_result
    rw [h]
  · intro a h
    refine ⟨?_, ?_, ?_⟩
    · intro hst
      unfold get_analysis_result
      rw [h]
      dsimp only
      have hc : (a.status == "pending" || a.status == "running") = true := by
        rcases hst with h1 | h1 <;> rw [h1] <;> rfl
      rw [if_pos hc]
    · intro hst
      unfold get_analysis_result
      rw [h]
      dsimp only
      have hc : ¬ ((a.status == "pending" || a.status == "running") = true) := by
        rw [hst]
        intro hx
        exact absurd hx (by decide)
      rw [if_neg hc]
      have hf : (a.status == "failed") = true := by rw [hst]; rfl
      rw [if_pos hf]
    · intro h1 h2 h3
      unfold get_analysis_result
      rw [h]
      dsimp only
      have hc : ¬ ((a.status == "pending" || a.status == "running") = true) := by
        intro hx
        rcases Bool.or_eq_true_iff.mp hx with hy | hy
        · exact h1 (eq_of_beq hy)
        · exact h2 (eq_of_beq hy)
      rw [if_neg hc]
      have hf : ¬ ((a.status == "failed") = true) := by
        intro hx
        exact h3 (eq_of_beq hx)
      rw [if_neg hf]

/-- Witness for `get_analysis_result_contract`: the 404, 202, 400 and success
branches on concrete stores. -/
theorem get_analysis_result_contract_witness :
    get_analysis_result [] "zzz"
      = Except.error { status_code := 404, detail := "Analysis " ++ "zzz" ++ " not found" }
    ∧ get_analysis_result [demoPending] "t1"
      = Except.error { status_code := 202, detail := "Analysis still processing. Current status: " ++ demoPending.status ++ ". Check /status/" ++ "t1" }
    ∧ get_analysis_result [demoFailed] "t1"
      = Except.error { status_code := 400, detail := "Analysis failed: " ++ pyStrOfOptStr demoFailed.error_message }
    ∧ get_analysis_result [demoCompleted] "t1"
      = Except.ok { id := demoCompleted.id, user_id := demoCompleted.user_id, filename := demoCompleted.filename, status := demoCompleted.status, result := demoCompleted.result_json, error := demoCompleted.error_message, created_at := demoCompleted.created_at, completed_at := demoCompleted.completed_at } :=
  ⟨(get_analysis_result_contract [] "zzz").1 rfl,
   ((get_analysis_result_contract [demoPending] "t1").2 demoPending rfl).1 (Or.inl rfl),
   ((get_analysis_result_contract [demoFailed] "t1").2 demoFailed rfl).2.1 rfl,
   ((get_analysis_result_contract [demoCompleted] "t1").2 demoCompleted rfl).2.2
     (by decide) (by decide) (by decide)⟩

/-- C9: a submission whose document reference is not a supported format (a
filename that is absent, empty, or does not end in `.pdf` case-insensitively)
is rejected with a 400 validation error before any side effect: no file is
written, no Owner record is created or looked up, and no Job Record is
created. -/
theorem submit_analysis_rejects_non_pdf (store : Store) (users : List User)
    (now : Nat) (file_id : String) (filename : Option String) (query : String)
    (email : Option String) (h : validPdfFilename filename = false) :
    submit_analysis store users now file_id filename query email
      = (Except.error { status_code := 400, detail := "Only PDF files are supported" },
         store, users, []) := by
  unfold submit_analysis
  rw [h]
  rfl

/-- Witness for `submit_analysis_rejects_non_pdf`: a `.txt` filename is
rejected with nothing persisted. -/
theorem submit_analysis_rejects_non_pdf_witness :
    submit_analysis [] [] 0 "t9" (some "report.txt") "q" none
      = (Except.error { status_code := 400, detail := "Only PDF files are supported" },
         [], [], []) :=
  submit_analysis_rejects_non_pdf [] [] 0 "t9" (some "report.txt") "q" none (by decide)

/-- C10: `run_crew_analysis` is total — the collaborator call is wrapped in a
`try` whose handler returns instead of raising, which its Lean translation
reflects by returning a plain `String` for every collaborator behavior. When
the collaborator raises with message `m`, the returned value is the JSON
serialization of `\x7b"error": m, "status": "failed"\x7d`; consequently the
Background Executor's run on a raising collaborator is literally equal to its
run on a succeeding collaborator that returns that payload — the two are
indistinguishable downstream. -/
theorem run_crew_analysis_total_and_masks (m query file_path : String)
    (store : Store) (now : Nat) (task_id : String)
    (parseJson : String → Option Json) :
    run_crew_analysis (fun _ _ => Except.error m) query file_path = json_dumps_error m
    ∧ analyze_document_task_run store now task_id file_path query
        (fun _ _ => Except.error m) parseJson
      = analyze_document_task_run store now task_id file_path query
        (fun _ _ => Except.ok (json_dumps_error m)) parseJson :=
  ⟨rfl, rfl⟩

/-- C8: on a table whose pending/running records carry no `completed_at` (the
state every single-delivery execution of the lifecycle produces), the
Retention Sweeper deletes all and only the records whose `completed_at`
precedes now minus the threshold, never deletes pending or running records
regardless of age, returns the count of deleted records, and a repeated
invocation with no newly expirable records deletes zero. -/
theorem delete_old_analyses_contract (store : Store) (now days : Nat)
    (H : ∀ r ∈ store, (r.status = "pending" ∨ r.status = "running") → r.completed_at = none) :
    (∀ r, r ∈ (delete_old_analyses store now days).1 ↔
      r ∈ store ∧ ¬ (∃ t, r.completed_at = some t ∧ t < now - days))
    ∧ (∀ r ∈ store, (r.status = "pending" ∨ r.status = "running") →
      r ∈ (delete_old_analyses store now days).1)
    ∧ (delete_old_analyses store now days).2
        + (delete_old_analyses store now days).1.length = store.length
    ∧ (delete_old_analyses (delete_old_analyses store now days).1 now days).2 = 0 := by
  have hiff : ∀ r : AnalysisResult, (!(isExpired (now - days) r)) = true
      ↔ ¬ (∃ t, r.completed_at = some t ∧ t < now - days) := by
    intro r
    unfold isExpired
    cases hc : r.completed_at with
    | none =>
      simp only [Bool.not_false, true_iff]
      rintro ⟨t, ht, _⟩
      exact absurd ht (by simp [hc])
    | some t =>
      simp only [Bool.not_eq_true', decide_eq_false_iff_not]
      constructor
      · rintro hn ⟨t', ht', hlt⟩
        cases Option.some.inj ht'
        exact hn hlt
      · intro hn hlt
        exact hn ⟨t, rfl, hlt⟩
  refine ⟨?_, ?_, ?_, ?_⟩
  · intro r
    unfold delete_old_analyses
    dsimp only
    rw [List.mem_filter, hiff r]
  · intro r hr hst
    unfold delete_old_analyses
    dsimp only
    rw [List.mem_filter]
    refine ⟨hr, ?_⟩
    unfold isExpired
    rw [H r hr hst]
    rfl
  · unfold delete_old_analyses
    dsimp only
    exact filter_partition_length store (now - days)
  · unfold delete_old_analyses
    dsimp only
    rw [List.filter_filter]
    have hz : ∀ r : AnalysisResult,
        (isExpired (now - days) r && !(isExpired (now - days) r)) = false := by
      intro r
      cases isExpired (now - days) r <;> rfl
    rw [List.filter_congr (fun r _ => hz r), List.filter_false]
    rfl

/-- Witness for `delete_old_analyses_contract`: a sweep at time 100 with a
7-unit threshold over one record completed at time 3 and one pending record
keeps exactly the pending record. -/
theorem delete_old_analyses_contract_witness :
    (delete_old_analyses [demoCompleted, demoPending] 100 7).2
      + (delete_old_analyses [demoCompleted, demoPending] 100 7).1.length
      = ([demoCompleted, demoPending] : Store).length :=
  (delete_old_analyses_contract [demoCompleted, demoPending] 100 7
    (by
      intro r hr hst
      rcases List.mem_cons.mp hr with h1 | h1
      · rw [h1] at hst
        rcases hst with h2 | h2 <;> exact absurd h2 (by decide)
      · rcases List.mem_cons.mp h1 with h2 | h2
        · subst h2; rfl
        · exact absurd h2 (List.not_mem_nil r))).2.2.1

/-- C1 counterexample: the claim fails as stated for an exception whose
message is the empty string (e.g. a bare `ValueError()`): the `except` block
passes `error_message=str(exc) = ""`, and `update_analysis_status` only
stores a truthy message, so the record reaches status `"failed"` with
`error_detail` still null — the exception's message is not persisted. -/
theorem executor_empty_message_not_persisted :
    get_analysis (analyze_document_task [demoPending] 5 "t1" "f.pdf" "q"
        (Except.error "") (fun _ => none)).1 "t1"
      = some { demoPending with status := "failed" }
    ∧ ({ demoPending with status := "failed" } : AnalysisResult).error_message = none :=
  ⟨rfl, rfl⟩

/-- C1 (amended): for every job whose analysis step raises an exception with
a non-empty message, the Background Executor transitions the job's existing
Job Record to status failed and persists the message as error detail (an
empty message leaves error detail null while status still becomes failed);
the exception is both persisted and reported: the event trace shows the
database failure update strictly before the queue-level
`update_state("FAILURE")` signal, and the exception is re-raised rather than
dropped. -/
theorem executor_failure_recorded_before_signal (store : Store) (now : Nat)
    (task_id file_path query msg : String) (parseJson : String → Option Json)
    (r : AnalysisResult) (hr : get_analysis store task_id = some r)
    (hm : msg ≠ "") :
    get_analysis (analyze_document_task store now task_id file_path query
        (Except.error msg) parseJson).1 task_id
      = some { r with status := "failed", error_message := some msg }
    ∧ (analyze_document_task store now task_id file_path query
        (Except.error msg) parseJson).2.1
      = [TaskEvent.dbUpdateStatus task_id "running" none,
         TaskEvent.invokeAnalysis query file_path,
         TaskEvent.dbUpdateStatus task_id "failed" (some msg),
         TaskEvent.celeryUpdateState "FAILURE" msg]
    ∧ (analyze_document_task store now task_id file_path query
        (Except.error msg) parseJson).2.2 = TaskOutcome.reraise msg := by
  refine ⟨?_, rfl, rfl⟩
  unfold analyze_document_task
  dsimp only
  rw [get_analysis_update_status, get_analysis_update_status, hr]
  simp only [Option.map_some']
  rw [applyStatusUpdate_running, applyStatusUpdate_failed now msg _ hm]

/-- Witness for `executor_failure_recorded_before_signal`: a stored pending
record and a raising analysis step with message `"boom"`. -/
theorem executor_failure_recorded_before_signal_witness :
    get_analysis (analyze_document_task [demoPending] 5 "t1" "f.pdf" "q"
        (Except.error "boom") (fun _ => none)).1 "t1"
      = some { demoPending with status := "failed", error_message := some "boom" } :=
  (executor_failure_recorded_before_signal [demoPending] 5 "t1" "f.pdf" "q"
    "boom" (fun _ => none) demoPending rfl (by decide)).1

/-- C2 counterexample: the failure transition does not stamp `completed_at`.
`update_analysis_status` sets `completed_at` only when the new status is
`"completed"`, so a record transitioned to `"failed"` (the executor's only
failure path) ends with status failed and `completed_at` null — refuting
"completed_at is null iff the status is pending or running". -/
theorem failed_record_completed_at_null :
    (update_analysis_status [demoPending] 5 "t1" "failed" (some "boom")).1
      = [{ demoPending with status := "failed", error_message := some "boom" }]
    ∧ ({ demoPending with status := "failed", error_message := some "boom" } : AnalysisResult).status = "failed"
    ∧ ({ demoPending with status := "failed", error_message := some "boom" } : AnalysisResult).completed_at = none :=
  ⟨rfl, rfl, rfl⟩

/-- C2 (amended): `completed_at` is stamped at the moment a record's status
transitions to completed — `update_analysis_status` stamps it exactly when
the new status is `"completed"` and leaves it unchanged otherwise (in
particular on the failed transition, so a record failing out of running keeps
a null `completed_at`), while `update_analysis_result` (invoked only with
`"completed"`) always stamps it. -/
theorem completed_at_stamping (now : Nat) (st : String) (em : Option String)
    (j : Json) (r : AnalysisResult) :
    (applyStatusUpdate now st em r).completed_at
      = (if st == "completed" then some now else r.completed_at)
    ∧ (applyResultUpdate now st j r).completed_at = some now := by
  refine ⟨?_, rfl⟩
  rw [applyStatusUpdate_eq]

/-- C3 counterexample: transitions are not validated — applying the status
update `"running"` to a record already in the terminal `"completed"` state
overwrites the status, reverting completed → running instead of rejecting or
no-opping the transition. -/
theorem terminal_record_reverted :
    demoCompleted.status = "completed"
    ∧ (update_analysis_status [demoCompleted] 9 "t1" "running" none).1
      = [{ demoCompleted with status := "running" }]
    ∧ ({ demoCompleted with status := "running" } : AnalysisResult).status = "running" :=
  ⟨rfl, rfl, rfl⟩

/-- C3 (amended): the store-level update operations perform no transition
validation: on any existing record they overwrite the status with whatever
value is passed — deterministically, but accepting every transition,
including reverts out of terminal states. The pending → running →
{completed | failed} order is only the Background Executor's own call
sequence, not enforced by the Job Record Store. -/
theorem status_overwrite_unconditional (now : Nat) (st : String)
    (em : Option String) (j : Json) (r : AnalysisResult) :
    (applyStatusUpdate now st em r).status = st
    ∧ (applyResultUpdate now st j r).status = st := by
  refine ⟨?_, rfl⟩
  rw [applyStatusUpdate_eq]

/-- C4 counterexample: with an empty store (no Job Record for the id), the
executor's run still invokes the analysis collaborator (the `invokeAnalysis`
event is in the trace) and the task returns the success payload rather than
reporting a failure; the claim's "the analysis collaborator is not invoked"
and "reported as a task failure" are both refuted. -/
theorem missing_record_not_aborted :
    analyze_document_task [] 5 "t1" "f.pdf" "q" (Except.ok "res") (fun _ => none)
      = ([], [TaskEvent.dbUpdateStatus "t1" "running" none,
              TaskEvent.invokeAnalysis "q" "f.pdf",
              TaskEvent.dbUpdateResult "t1" "completed"],
         TaskOutcome.success "t1" (Json.obj [("raw_analysis", Json.str "res")])) :=
  rfl

/-- C4 (amended): when the Background Executor begins a job whose Job Record
cannot be found, no database update is performed (both updates are logged
no-ops leaving the table unchanged) and the condition is logged, but the
executor does not abort: the analysis collaborator is still invoked, and the
task completes reporting success (it reports failure only if the analysis
step itself raises, in which case the table is still left unchanged). -/
theorem missing_record_noop_but_continues (store : Store) (now : Nat)
    (task_id file_path query s msg : String) (parseJson : String → Option Json)
    (h : get_analysis store task_id = none) :
    (analyze_document_task store now task_id file_path query (Except.ok s) parseJson).1 = store
    ∧ TaskEvent.invokeAnalysis query file_path
        ∈ (analyze_document_task store now task_id file_path query (Except.ok s) parseJson).2.1
    ∧ (∃ j, (analyze_document_task store now task_id file_path query (Except.ok s) parseJson).2.2
        = TaskOutcome.success task_id j)
    ∧ (analyze_document_task store now task_id file_path query (Except.error msg) parseJson).1 = store := by
  unfold analyze_document_task
  dsimp only
  rw [update_status_missing store now task_id "running" none h]
  dsimp only
  rw [update_result_missing store now task_id "completed" _ h,
      update_status_missing store now task_id "failed" (some msg) h]
  refine ⟨rfl, ?_, ⟨_, rfl⟩, rfl⟩
  exact List.mem_cons_of_mem _ (List.mem_cons_self _ _)

/-- Witness for `missing_record_noop_but_continues`: the empty store. -/
theorem missing_record_noop_but_continues_witness :
    (analyze_document_task [] 5 "t1" "f.pdf" "q" (Except.ok "res") (fun _ => none)).1 = []
    ∧ TaskEvent.invokeAnalysis "q" "f.pdf"
        ∈ (analyze_document_task [] 5 "t1" "f.pdf" "q" (Except.ok "res") (fun _ => none)).2.1
    ∧ (∃ j, (analyze_document_task [] 5 "t1" "f.pdf" "q" (Except.ok "res") (fun _ => none)).2.2
        = TaskOutcome.success "t1" j)
    ∧ (analyze_document_task [] 5 "t1" "f.pdf" "q" (Except.error "boom") (fun _ => none)).1 = [] :=
  missing_record_noop_but_continues [] 5 "t1" "f.pdf" "q" "res" "boom" (fun _ => none) rfl

/-- C7 counterexample: the field/status iff is not maintained across the
operations the executor performs under the design's own at-least-once
delivery: re-applying the executor's step-1 running transition to a record
that already completed (a redelivered job) leaves status `"running"` with a
non-null `result` — refuting "result is non-null iff status is completed". -/
theorem running_record_with_result :
    (update_analysis_status
        (update_analysis_result [demoPending] 3 "t1" "completed" (Json.str "ok")).1
        7 "t1" "running" none).1
      = [{ demoPending with status := "running", result_json := some (Json.str "ok"), completed_at := some 3 }]
    ∧ ({ demoPending with status := "running", result_json := some (Json.str "ok"), completed_at := some 3 } : AnalysisResult).status = "running"
    ∧ ({ demoPending with status := "running", result_json := some (Json.str "ok"), completed_at := some 3 } : AnalysisResult).result_json = some (Json.str "ok") :=
  ⟨rfl, rfl, rfl⟩

/-- C7 (amended): within a single executor run on a freshly created Job
Record the field discipline holds: a failing run (non-empty message) ends
with status failed, error detail set and result null, and a successful run
ends with status completed, result set and error detail null. The iff is not
maintained by the store operations across runs (redelivery leaves a running
record with a stale result), nor for an empty failure message (which leaves
error detail null — see the C1 counterexample). -/
theorem single_run_field_discipline (now0 now : Nat)
    (task_id filename fp q s msg : String) (uid : Option Nat)
    (parseJson : String → Option Json) (hm : msg ≠ "") :
    (∃ r, get_analysis (analyze_document_task (create_analysis [] now0 task_id filename uid).1
          now task_id fp q (Except.error msg) parseJson).1 task_id = some r
        ∧ r.status = "failed" ∧ r.error_message = some msg
        ∧ r.result_json = none ∧ r.completed_at = none)
    ∧ (∃ r j, get_analysis (analyze_document_task (create_analysis [] now0 task_id filename uid).1
          now task_id fp q (Except.ok s) parseJson).1 task_id = some r
        ∧ r.status = "completed" ∧ r.result_json = some j
        ∧ r.error_message = none ∧ r.completed_at = some now) := by
  have hfresh : get_analysis (create_analysis [] now0 task_id filename uid).1 task_id
      = some { id := task_id, user_id := uid, filename := filename,
               status := "pending", result_json := none, error_message := none,
               created_at := now0, completed_at := none } := by
    unfold create_analysis get_analysis
    dsimp only
    rw [List.nil_append]
    exact List.find?_cons_of_pos _ (by simp)
  constructor
  · have hget : get_analysis (analyze_document_task (create_analysis [] now0 task_id filename uid).1
          now task_id fp q (Except.error msg) parseJson).1 task_id
        = some { id := task_id, user_id := uid, filename := filename,
                 status := "failed", result_json := none,
                 error_message := some msg, created_at := now0,
                 completed_at := none } := by
      unfold analyze_document_task
      dsimp only
      rw [get_analysis_update_status, get_analysis_update_status, hfresh]
      simp only [Option.map_some']
      rw [applyStatusUpdate_running, applyStatusUpdate_failed now msg _ hm]
    exact ⟨_, hget, rfl, rfl, rfl, rfl⟩
  · have hget : get_analysis (analyze_document_task (create_analysis [] now0 task_id filename uid).1
          now task_id fp q (Except.ok s) parseJson).1 task_id
        = some { id := task_id, user_id := uid, filename := filename,
                 status := "completed",
                 result_json := some (match parseJson s with | some j => j | none => Json.obj [("raw_analysis", Json.str s)]),
                 error_message := none, created_at := now0,
                 completed_at := some now } := by
      unfold analyze_document_task
      dsimp only
      rw [get_analysis_update_result, get_analysis_update_status, hfresh]
      simp only [Option.map_some']
      rw [applyStatusUpdate_running]
      rfl
    exact ⟨_, _, hget, rfl, rfl, rfl, rfl⟩

/-- Witness for `single_run_field_discipline`: concrete failing and
succeeding runs on a record created at time 0. -/
theorem single_run_field_discipline_witness :
    (∃ r, get_analysis (analyze_document_task (create_analysis [] 0 "t1" "doc.pdf" none).1
          5 "t1" "f.pdf" "q" (Except.error "boom") (fun _ => none)).1 "t1" = some r
        ∧ r.status = "failed" ∧ r.error_message = some "boom"
        ∧ r.result_json = none ∧ r.completed_at = none) :=
  (single_run_field_discipline 0 5 "t1" "doc.pdf" "f.pdf" "q" "res" "boom" none
    (fun _ => none) (by decide)).1

end FinDocAnalyzer
